import Mathlib

/-!
Verification of the cross-application paste-correlation engine of
process-capture-studio (`src/python/clipboard_monitor.py` and
`src/python/capture_service.py`).

The Python code is shallowly embedded: strings are manipulated as
`List Char` (Python `str` semantics over its characters), dictionaries
become Lean structures with `Option` fields for keys that may be
missing or hold `None`, ISO-format timestamps become `Nat` (ISO strings
compare lexicographically in timestamp order), and the clipboard
history list becomes `List ClipEvent`.
-/

/-! ### Character-list helpers (Python `str` operations) -/

/-- Python `c in s` for a single character. -/
def lcontains (l : List Char) (c : Char) : Bool :=
  l.any (· == c)

/-- Python `s.startswith(pre)` over character lists: `listStartsWith pre l`. -/
def listStartsWith : List Char → List Char → Bool
  | [], _ => true
  | _ :: _, [] => false
  | p :: ps, c :: cs => p == c && listStartsWith ps cs

/-- Python `sub in s` (substring containment) over character lists. -/
def hasSub (sub : List Char) : List Char → Bool
  | [] => sub.isEmpty
  | c :: rest => listStartsWith sub (c :: rest) || hasSub sub rest

/-- Python `s.split(c)` for a one-character separator: splits on every
occurrence, keeping empty segments, `[""]` on empty input. -/
def splitChar (c : Char) : List Char → List (List Char)
  | [] => [[]]
  | x :: xs =>
    let r := splitChar c xs
    if x == c then [] :: r
    else
      match r with
      | [] => [[x]]
      | h :: t => (x :: h) :: t

/-- Python `s.split(" - ")`: split on the literal three-character
separator `" - "`, scanning left to right, non-overlapping. -/
def splitDash : List Char → List (List Char)
  | ' ' :: '-' :: ' ' :: rest => [] :: splitDash rest
  | x :: xs =>
    (match splitDash xs with
     | [] => [[x]]
     | h :: t => (x :: h) :: t)
  | [] => [[]]

/-- The characters stripped by Python `str.strip()` with no argument
(ASCII whitespace). -/
def pyWhitespace (c : Char) : Bool :=
  c == ' ' || c == '\t' || c == '\n' || c == '\r' || c == '\x0b' || c == '\x0c'

/-- Python `s.strip()`. -/
def stripL (l : List Char) : List Char :=
  ((l.dropWhile pyWhitespace).reverse.dropWhile pyWhitespace).reverse

/-- Python `s.lower()` (ASCII case folding). -/
def lowerL (l : List Char) : List Char :=
  l.map Char.toLower

/-- Python `s.isdigit()`: non-empty and all digits. -/
def pyIsdigitL (l : List Char) : Bool :=
  !l.isEmpty && l.all Char.isDigit

/-! ### Model of CPython `float(str)` acceptance

`clipboard_monitor.py` line 303 calls the builtin `float` on the
cleaned clipboard text and treats success as "numeric".  The grammar
accepted by CPython's `float` is modelled here: optional surrounding
whitespace, an optional sign, then either `inf`/`infinity`/`nan`
(case-insensitive) or a decimal mantissa (digit runs may contain
single underscores between digits) with optional fraction and optional
exponent. -/

/-- Continuation of a digit run: digits with single underscores allowed
only between digits. -/
def usAux : List Char → Bool
  | [] => true
  | ['_'] => false
  | '_' :: c :: rest => c.isDigit && usAux rest
  | c :: rest => c.isDigit && usAux rest

/-- A Python `digitpart`: `[0-9]+` with single underscores between digits. -/
def digitSeq : List Char → Bool
  | [] => false
  | c :: rest => c.isDigit && usAux rest

/-- Exponent part after the `e`/`E`: optional sign then a digit run. -/
def expOk (l : List Char) : Bool :=
  match l with
  | c :: rest => if c == '+' || c == '-' then digitSeq rest else digitSeq (c :: rest)
  | [] => false

/-- Mantissa: `digitpart`, `digitpart "."` , `"." digitpart`, or
`digitpart "." digitpart`. -/
def mantOk (l : List Char) : Bool :=
  let ip := l.takeWhile (· != '.')
  let rest := l.drop ip.length
  match rest with
  | [] => digitSeq ip
  | _ :: fp =>
    (digitSeq ip || ip.isEmpty) && (digitSeq fp || fp.isEmpty) &&
      !(ip.isEmpty && fp.isEmpty)

/-- Whether CPython `float(s)` succeeds on the character list `s`. -/
def pyFloatOk (l : List Char) : Bool :=
  let l1 := stripL l
  let l2 := match l1 with
    | c :: rest => if c == '+' || c == '-' then rest else c :: rest
    | [] => []
  let low := lowerL l2
  if low == "inf".toList || low == "infinity".toList || low == "nan".toList then
    true
  else
    let mant := l2.takeWhile (fun c => c != 'e' && c != 'E')
    match l2.drop mant.length with
    | [] => mantOk mant
    | _ :: ex => mantOk mant && expOk ex

/-! ### Content-type detection (`ClipboardMonitor._detect_data_type`) -/

/-- The three-token split used by the date check: replace `/` with `-`
and split on `-`. -/
def dateParts (cl : List Char) : List (List Char) :=
  splitChar '-' (cl.map (fun c => if c == '/' then '-' else c))

/-- `ClipboardMonitor._detect_data_type` (clipboard_monitor.py 283-321):
first-match cascade email, phone, url, number, date, tabular/multiline,
text. -/
def detect_data_type (content : String) : String :=
  let cl := content.toList
  let content_lower := stripL (lowerL cl)
  -- Email detection: '@' in content and '.' in content.split('@')[-1]
  if lcontains cl '@' ∧ lcontains ((splitChar '@' cl).getLastD []) '.' then "email"
  -- Phone number detection: some digit, and 7 <= number of digits <= 15
  else if cl.any Char.isDigit ∧ 7 ≤ (cl.filter Char.isDigit).length ∧
      (cl.filter Char.isDigit).length ≤ 15 then "phone"
  -- URL detection on the lowered, stripped content
  else if listStartsWith "http://".toList content_lower ∨
      listStartsWith "https://".toList content_lower ∨
      listStartsWith "www.".toList content_lower then "url"
  -- Number detection: float(content.replace(',','').replace('$','').strip())
  else if pyFloatOk (stripL ((cl.filter (· != ',')).filter (· != '$'))) then "number"
  -- Date detection (basic): a '-'/'/' separator, short content,
  -- exactly 3 all-digit groups
  else if (lcontains cl '/' ∨ lcontains cl '-') ∧ cl.length < 20 ∧
      (dateParts cl).length = 3 ∧ (dateParts cl).all (fun p => pyIsdigitL (stripL p)) then
    "date"
  -- Multi-line detection, with tab checked first
  else if lcontains cl '\n' ∨ lcontains cl '\t' then
    if lcontains cl '\t' then "tabular" else "multiline"
  else "text"

/-! ### Application-type inference (`ProcessCaptureService._infer_app_type`) -/

/-- `ProcessCaptureService._infer_app_type` (capture_service.py 827-842).
The argument is `Option String` because the Python parameter may be
`None`; `None` and `""` are both falsy and yield the empty lowered name. -/
def infer_app_type (app_name : Option String) : String :=
  let app_lower := lowerL (app_name.getD "").toList
  if hasSub "excel".toList app_lower ∨ hasSub "sheets".toList app_lower then
    "spreadsheet"
  else if hasSub "word".toList app_lower ∨ hasSub "docs".toList app_lower then
    "document"
  else if hasSub "powerpoint".toList app_lower ∨ hasSub "slides".toList app_lower then
    "presentation"
  else if ["chrome", "safari", "firefox", "edge"].any
      (fun b => hasSub b.toList app_lower) then
    "web_application"
  else if hasSub "code".toList app_lower ∨ hasSub "sublime".toList app_lower ∨
      hasSub "atom".toList app_lower then
    "code_editor"
  else "unknown"

/-! ### Data model -/

/-- A structured Excel selection (`ClipboardMonitor._get_excel_selection`):
`{address, sheet, workbook, path}`. -/
structure ExcelSel where
  address : String
  sheet : String
  workbook : String
  path : Option String
deriving DecidableEq

/-- The source-context dictionary attached to a clipboard event
(`ClipboardMonitor._get_source_context` and platform variants).  The
keys are always present; `document` and `excel_selection` may hold
`None`. -/
structure SourceCtx where
  application : String
  window_title : String
  document : Option String
  excel_selection : Option ExcelSel
deriving DecidableEq

/-- A clipboard ledger entry: the dictionary built by
`ClipboardMonitor._handle_clipboard_change` (clipboard_monitor.py
95-108).  The ISO timestamp string is modelled as a `Nat` (ISO strings
compare lexicographically in timestamp order). -/
structure ClipEvent where
  type : String
  timestamp : Nat
  content : String
  content_preview : String
  data_type : String
  source : SourceCtx
  length : Nat
  lines : Nat
  excel_cells : Option ExcelSel
deriving DecidableEq

/-- A Python scalar stored under a location key such as `page`,
`paragraph` or `slide`: an integer from OS automation, or a string
such as a page title or `'Unknown'`. -/
inductive PyScalar where
  | pnat (n : Nat)
  | pstr (s : String)
deriving DecidableEq

/-- How an f-string renders the scalar. -/
def PyScalar.render : PyScalar → String
  | .pnat n => toString n
  | .pstr s => s

/-- `loc.get(key, '?')` as rendered inside an f-string. -/
def optRender : Option PyScalar → String
  | some v => v.render
  | none => "?"

/-- The `location` sub-dictionary of a source/destination context.
Each field models one key that some handler may set; `none` means the
key is absent. -/
structure LocationCtx where
  sheet : Option String
  address : Option String
  page : Option PyScalar
  paragraph : Option PyScalar
  line : Option PyScalar
  slide : Option PyScalar
  type : Option String
deriving DecidableEq

/-- A source or destination context dictionary as built by the
destination-capture handlers and by `_create_unified_paste_event`.
`application`, `window` and `type` are always set by the code that
builds these dictionaries; the remaining keys are optional. -/
structure Ctx where
  application : String
  window : String
  type : String
  document : Option String
  location : Option LocationCtx
  path : Option String
  page_title : Option String
  domain : Option String
  web_app : Option String
  content : Option String
  data_type : Option String
deriving DecidableEq

/-- The `data_flow` dictionary of a unified paste event.  `dfrom` and
`dto` model the Python keys `'from'` and `'to'` (reserved words in
Lean). -/
structure DataFlow where
  dfrom : String
  dto : String
  transformation : String
deriving DecidableEq

/-- The unified `cross_app_paste` event
(`ProcessCaptureService._create_unified_paste_event`).  `data_flow =
none` models the initial empty dictionary `{}` left untouched on the
incomplete-context path. -/
structure PasteEvent where
  type : String
  paste_timestamp : Option Nat
  source : Option Ctx
  destination : Ctx
  data_flow : Option DataFlow
  description : String
deriving DecidableEq

/-! ### Clipboard History Ledger (`ClipboardMonitor`) -/

/-- `ClipboardMonitor.max_history` (clipboard_monitor.py line 48). -/
def max_history : Nat := 50

/-- The append-and-evict step of `_handle_clipboard_change`
(clipboard_monitor.py 111-114): append, then pop index 0 when the
length exceeds `max_history`. -/
def pushEvent (hist : List ClipEvent) (e : ClipEvent) : List ClipEvent :=
  let h := hist ++ [e]
  if max_history < h.length then h.drop 1 else h

/-- The ledger contents after recording a whole sequence of entries,
starting from the empty history. -/
def recordAll (es : List ClipEvent) : List ClipEvent :=
  es.foldl pushEvent []

/-- `ClipboardMonitor.get_last_clipboard` (clipboard_monitor.py
337-341): the last history entry, or `None` when empty. -/
def get_last_clipboard (hist : List ClipEvent) : Option ClipEvent :=
  hist.getLast?

/-- `ClipboardMonitor.find_paste_destination` (clipboard_monitor.py
343-353): scan the history newest-to-oldest and return the first entry
whose timestamp is `≤` the paste time. -/
def find_paste_destination (hist : List ClipEvent) (paste_time : Nat) :
    Option ClipEvent :=
  hist.reverse.find? (fun e => e.timestamp ≤ paste_time)

/-- `ClipboardMonitor._get_preview` (clipboard_monitor.py 323-335) with
the default `max_length = 50`. -/
def get_preview (content : String) : String :=
  let cl := content.toList
  if cl.length ≤ 50 then content
  else if lcontains cl '\n' then
    let first_line := (splitChar '\n' cl).headD []
    if first_line.length ≤ 50 then String.mk first_line ++ "..."
    else String.mk (first_line.take 50) ++ "..."
  else String.mk (cl.take 50) ++ "..."

/-- One clipboard poll observed by `_monitor_loop`: the clipboard text
plus the source context and timestamp the handler would attach. -/
structure Poll where
  content : String
  source : SourceCtx
  ts : Nat
deriving DecidableEq

/-- The event dictionary built by `_handle_clipboard_change`
(clipboard_monitor.py 95-108): content is size-capped at 1000
characters, and `excel_cells` is added when the source has an Excel
selection. -/
def mkClipEvent (p : Poll) : ClipEvent :=
  let cl := p.content.toList
  { type := "clipboard_copy"
    timestamp := p.ts
    content := String.mk (cl.take 1000)
    content_preview := get_preview p.content
    data_type := detect_data_type p.content
    source := p.source
    length := cl.length
    lines := if lcontains cl '\n' then cl.count '\n' + 1 else 1
    excel_cells := p.source.excel_selection }

/-- Monitor-loop state: `last_clipboard` and `clipboard_history`
(clipboard_monitor.py 44, 47). -/
structure MonState where
  last : String
  history : List ClipEvent
deriving DecidableEq

/-- Initial monitor state: `last_clipboard = ""`, empty history. -/
def initMonState : MonState := { last := "", history := [] }

/-- One iteration of `_monitor_loop` (clipboard_monitor.py 70-84) on a
polled clipboard value: record only when the text is non-empty
(truthy) and differs from `last_clipboard`, then remember it. -/
def monitorStep (st : MonState) (p : Poll) : MonState :=
  if p.content ≠ "" ∧ p.content ≠ st.last then
    { last := p.content, history := pushEvent st.history (mkClipEvent p) }
  else st

/-- The sub-sequence of polls that trigger a recording, tracking how
`last_clipboard` evolves. -/
def recordedPolls (last : String) : List Poll → List Poll
  | [] => []
  | p :: rest =>
    if p.content ≠ "" ∧ p.content ≠ last then p :: recordedPolls p.content rest
    else recordedPolls last rest

/-! ### Transformation table (`ProcessCaptureService._detect_transformation`) -/

/-- The keys of the `transformations` dictionary
(capture_service.py 870-879). -/
def transformation_keys : List (String × String) :=
  [("spreadsheet", "document"), ("spreadsheet", "presentation"),
   ("spreadsheet", "web_application"), ("document", "spreadsheet"),
   ("document", "presentation"), ("document", "web_application"),
   ("web_application", "spreadsheet"), ("web_application", "document")]

/-- `ProcessCaptureService._detect_transformation` (capture_service.py
868-881): the fixed dictionary lookup with default `'direct_paste'`. -/
def detect_transformation (source_type dest_type : String) : String :=
  if source_type = "spreadsheet" ∧ dest_type = "document" then "table_to_text"
  else if source_type = "spreadsheet" ∧ dest_type = "presentation" then "data_to_slide"
  else if source_type = "spreadsheet" ∧ dest_type = "web_application" then "data_to_form"
  else if source_type = "document" ∧ dest_type = "spreadsheet" then "text_to_cells"
  else if source_type = "document" ∧ dest_type = "presentation" then "text_to_slide"
  else if source_type = "document" ∧ dest_type = "web_application" then "text_to_form"
  else if source_type = "web_application" ∧ dest_type = "spreadsheet" then "web_to_data"
  else if source_type = "web_application" ∧ dest_type = "document" then "web_to_text"
  else "direct_paste"

/-! ### Location formatting (`ProcessCaptureService._format_location`) -/

/-- A location dictionary with no keys set. -/
def emptyLoc : LocationCtx :=
  { sheet := none, address := none, page := none, paragraph := none,
    line := none, slide := none, type := none }

/-- `ProcessCaptureService._format_location` (capture_service.py
844-866).  `none` models a falsy `context`; `doc or app` is the Python
truthiness fallback from an empty/absent document name to the
application name. -/
def format_location (context : Option Ctx) : String :=
  match context with
  | none => "Unknown"
  | some c =>
    let app := c.application
    let doc := c.document.getD ""
    let docOrApp := if doc = "" then app else doc
    if c.type = "spreadsheet" ∧ c.location.isSome then
      let loc := c.location.getD emptyLoc
      docOrApp ++ "!" ++ loc.sheet.getD "" ++ "!" ++ loc.address.getD ""
    else if c.type = "document" ∧ c.location.isSome then
      let loc := c.location.getD emptyLoc
      docOrApp ++ " (Page " ++ optRender loc.page ++ ", Para " ++
        optRender loc.paragraph ++ ")"
    else if c.type = "presentation" ∧ c.location.isSome then
      let loc := c.location.getD emptyLoc
      docOrApp ++ " (Slide " ++ optRender loc.slide ++ ")"
    else if c.type = "web_application" then
      let web_app := c.web_app.getD (c.domain.getD app)
      web_app ++ ": " ++ c.page_title.getD "Unknown page"
    else docOrApp

/-! ### Paste Correlator (`ProcessCaptureService._create_unified_paste_event`) -/

/-- The `source` dictionary built from the latest clipboard entry
(capture_service.py 782-807): Excel-selection sources become typed
spreadsheet contexts; otherwise the application type is inferred from
the application name. -/
def build_source (lc : ClipEvent) : Ctx :=
  let app := lc.source.application
  match lc.source.excel_selection with
  | some xi =>
    { application := app, window := lc.source.window_title,
      type := "spreadsheet", document := some xi.workbook,
      location := some { emptyLoc with
        sheet := some xi.sheet
        address := some xi.address
        type := some "cell_range" },
      path := xi.path, page_title := none, domain := none, web_app := none,
      content := some lc.content_preview, data_type := some lc.data_type }
  | none =>
    { application := app, window := lc.source.window_title,
      type := infer_app_type (some app), document := lc.source.document,
      location := none, path := none, page_title := none, domain := none,
      web_app := none, content := some lc.content_preview,
      data_type := some lc.data_type }

/-- `ProcessCaptureService._create_unified_paste_event`
(capture_service.py 763-825).  The last clipboard entry is passed in
as the result of `get_last_clipboard`; the destination context is the
(always non-empty, hence truthy) dictionary returned by a destination
handler. -/
def create_unified_paste_event (paste_timestamp : Option Nat)
    (last_clipboard : Option ClipEvent) (destination_context : Ctx) : PasteEvent :=
  let src : Option Ctx := match last_clipboard with
    | some lc => some (build_source lc)
    | none => none
  match src with
  | some s =>
    let src_desc := format_location (some s)
    let dst_desc := format_location (some destination_context)
    { type := "cross_app_paste", paste_timestamp := paste_timestamp,
      source := some s, destination := destination_context,
      data_flow := some { dfrom := src_desc, dto := dst_desc,
                          transformation := detect_transformation s.type
                            destination_context.type },
      description := "Pasted from " ++ src_desc ++ " to " ++ dst_desc }
  | none =>
    { type := "cross_app_paste", paste_timestamp := paste_timestamp,
      source := none, destination := destination_context,
      data_flow := none,
      description := "Paste operation (incomplete context)" }

/-! ### Browser destination handler
(`ProcessCaptureService._capture_browser_destination`) -/

/-- `window_title.split(' - ') if window_title else []`
(capture_service.py 697). -/
def titleParts (window_title : String) : List (List Char) :=
  if window_title = "" then [] else splitDash window_title.toList

/-- The fixed web-application signature dictionary
(capture_service.py 704-717), in insertion order. -/
def web_apps : List (String × String) :=
  [("salesforce", "Salesforce"), ("activecampaign", "ActiveCampaign"),
   ("wordpress", "WordPress"), ("gmail", "Gmail"),
   ("docs.google", "Google Docs"), ("sheets.google", "Google Sheets"),
   ("notion", "Notion"), ("airtable", "Airtable"), ("hubspot", "HubSpot"),
   ("slack", "Slack"), ("trello", "Trello"), ("jira", "Jira")]

/-- `ProcessCaptureService._capture_browser_destination`
(capture_service.py 688-733): split the window title on `" - "`; with
at least two parts take the first as page title and `parts[-2]` (or
`parts[1]` for exactly two) as domain, then scan for a recognized
web-application signature; finally attach the page-level location. -/
def capture_browser_destination (app_name window_title : String) : Ctx :=
  let parts := titleParts window_title
  let d0 : Ctx :=
    { application := app_name, window := window_title,
      type := "web_application", document := none, location := none,
      path := none, page_title := none, domain := none, web_app := none,
      content := none, data_type := none }
  let d1 : Ctx :=
    if 2 ≤ parts.length then
      let d := { d0 with
        page_title := some (String.mk (parts.getD 0 []))
        domain := some (String.mk (if 2 < parts.length then
          parts.getD (parts.length - 2) [] else parts.getD 1 [])) }
      match web_apps.find? (fun kv => hasSub kv.1.toList
          (lowerL window_title.toList)) with
      | some kv => { d with web_app := some kv.2, type := "web_application" }
      | none => d
    else d0
  { d1 with location := some { emptyLoc with
      page := some (.pstr (d1.page_title.getD "Unknown"))
      type := some "web_form" } }

/-! ### Inbound command handling
(`ProcessCaptureService.listen_for_commands` / `handle_command`) -/

/-- A Python value decoded from a JSON message. -/
inductive PyVal where
  | pydict (fields : List (String × PyVal))
  | pylist (items : List PyVal)
  | pystr (s : String)
  | pynum (n : Int)
  | pybool (b : Bool)
  | pynull

/-- Python `dict.get(key)`: the stored value, or `None` when the key
is absent. -/
def dictGet (fields : List (String × PyVal)) (key : String) : Option PyVal :=
  (fields.find? (fun kv => kv.1 == key)).map (·.2)

/-- The exception a message can raise while being handled. -/
inductive PyError where
  | attributeError

/-- An inbound websocket message: either text that `json.loads`
rejects, or the decoded value. -/
inductive InMsg where
  | unparsable (raw : String)
  | value (v : PyVal)

/-- The paste request extracted from a well-formed
`capture_paste_destination` command (capture_service.py 474-477). -/
structure PasteRequest where
  timestamp : Option PyVal
  application : PyVal
  window : PyVal

/-- Whether `command.get('type')` equals the string
`'capture_paste_destination'`. -/
def isCaptureCmd : Option PyVal → Bool
  | some (.pystr s) => s == "capture_paste_destination"
  | _ => false

/-- `ProcessCaptureService.handle_command` (capture_service.py
470-478).  `command.get(...)` on a non-dict value raises
`AttributeError`; a dict without the recognized `type` is ignored
(`.ok none`: no event emitted). -/
def handle_command (command : PyVal) : Except PyError (Option PasteRequest) :=
  match command with
  | .pydict fields =>
    if isCaptureCmd (dictGet fields "type") then
      .ok (some { timestamp := dictGet fields "timestamp"
                  application := (dictGet fields "application").getD (.pystr "Unknown")
                  window := (dictGet fields "window").getD (.pystr "") })
    else .ok none
  | _ => .error .attributeError

/-- One iteration of the message loop in
`ProcessCaptureService.listen_for_commands` (capture_service.py
458-465): `json.JSONDecodeError` is caught (message logged, loop
continues, no event); any other exception escapes the loop. -/
def process_message (m : InMsg) : Except PyError (Option PasteRequest) :=
  match m with
  | .unparsable _ => .ok none
  | .value v => handle_command v

/-! ### Concrete fixtures used by witnesses and example-based claims -/

/-- The spreadsheet selection of the spec's worked example
(workbook `Sales.xlsx`, sheet `Q1`, address `A1:B2`). -/
def salesSelection : ExcelSel :=
  { address := "A1:B2", sheet := "Q1", workbook := "Sales.xlsx", path := none }

/-- Source context of the worked example: a copy made in Excel with the
structured selection attached. -/
def salesSource : SourceCtx :=
  { application := "Microsoft Excel", window_title := "Sales.xlsx - Excel",
    document := some "Sales.xlsx", excel_selection := some salesSelection }

/-- The ledger entry of the worked example. -/
def salesEntry : ClipEvent :=
  { type := "clipboard_copy", timestamp := 10, content := "1\t2",
    content_preview := "1\t2", data_type := "tabular", source := salesSource,
    length := 3, lines := 1, excel_cells := some salesSelection }

/-- Destination context of the worked example: a Word document
`Report.docx` at page 2, paragraph 5. -/
def reportDest : Ctx :=
  { application := "Microsoft Word", window := "Report.docx - Word",
    type := "document", document := some "Report.docx",
    location := some { emptyLoc with
      page := some (.pnat 2)
      paragraph := some (.pnat 5)
      type := some "text_position" },
    path := none, page_title := none, domain := none, web_app := none,
    content := none, data_type := none }

/-- A minimal source context for ledger fixtures. -/
def plainSource : SourceCtx :=
  { application := "TestApp", window_title := "TestWindow",
    document := none, excel_selection := none }

/-- A ledger entry fixture with timestamp 1. -/
def entryA : ClipEvent :=
  { type := "clipboard_copy", timestamp := 1, content := "aaa",
    content_preview := "aaa", data_type := "text", source := plainSource,
    length := 3, lines := 1, excel_cells := none }

/-- A ledger entry fixture with timestamp 5. -/
def entryB : ClipEvent :=
  { type := "clipboard_copy", timestamp := 5, content := "bbb",
    content_preview := "bbb", data_type := "text", source := plainSource,
    length := 3, lines := 1, excel_cells := none }

/-- Poll fixtures for the monitor-loop invariant. -/
def pollA : Poll := { content := "hello", source := plainSource, ts := 1 }

/-- A poll with empty clipboard text (must not be recorded). -/
def pollB : Poll := { content := "", source := plainSource, ts := 2 }

/-- A poll repeating the previously recorded text (must not be recorded). -/
def pollC : Poll := { content := "hello", source := plainSource, ts := 3 }

/-- A poll with fresh text. -/
def pollD : Poll := { content := "world", source := plainSource, ts := 4 }


/-! ## Claim theorems -/

/-- C1 (counterexample): on the input `"2024-01-15"` the detector
returns `phone`, not `date` as the claim states — the string has 8
digit characters, so the phone rule (7-15 digits) fires before the
date rule in the first-match order. -/
theorem C1_date_counterexample :
    detect_data_type "2024-01-15" = "phone" ∧
      ¬ detect_data_type "2024-01-15" = "date" := by decide

/-- C1 (amended): for the spec's named inputs the detector returns
email, number and tabular as stated, but `"2024-01-15"` is classified
`phone` (its 8 digits fall in the 7-15 range checked before the date
rule). -/
theorem C1_detect_examples :
    detect_data_type "john@example.com" = "email" ∧
    detect_data_type "$1,234.56" = "number" ∧
    detect_data_type "2024-01-15" = "phone" ∧
    detect_data_type "a\tb\tc" = "tabular" := by decide

/-- C2: the correlator's source candidate is the most recently appended
ledger entry regardless of timestamps, and with an empty ledger the
unified paste event has `source = none`, the literal incomplete-context
description, an empty `data_flow`, and is produced totally (no
exception path exists in the embedding). -/
theorem C2_empty_ledger :
    (∀ (hist : List ClipEvent) (e : ClipEvent),
      get_last_clipboard (hist ++ [e]) = some e) ∧
    ∀ (pt : Option Nat) (dest : Ctx),
      (create_unified_paste_event pt (get_last_clipboard []) dest).source = none ∧
      (create_unified_paste_event pt (get_last_clipboard []) dest).description =
        "Paste operation (incomplete context)" ∧
      (create_unified_paste_event pt (get_last_clipboard []) dest).data_flow = none := by
  refine ⟨fun hist e => ?_, fun pt dest => ⟨rfl, rfl, rfl⟩⟩
  simp [get_last_clipboard, List.getLast?_concat]

/-- C5: the transformation lookup equals the fixed table on its eight
keys, and every pair outside the key set yields `direct_paste`. -/
theorem C5_transformation_table :
    detect_transformation "spreadsheet" "document" = "table_to_text" ∧
    detect_transformation "spreadsheet" "presentation" = "data_to_slide" ∧
    detect_transformation "spreadsheet" "web_application" = "data_to_form" ∧
    detect_transformation "document" "spreadsheet" = "text_to_cells" ∧
    detect_transformation "document" "presentation" = "text_to_slide" ∧
    detect_transformation "document" "web_application" = "text_to_form" ∧
    detect_transformation "web_application" "spreadsheet" = "web_to_data" ∧
    detect_transformation "web_application" "document" = "web_to_text" ∧
    ∀ s d : String, (s, d) ∉ transformation_keys →
      detect_transformation s d = "direct_paste" := by
  refine ⟨by decide, by decide, by decide, by decide, by decide, by decide,
    by decide, by decide, ?_⟩
  intro s d h
  unfold detect_transformation
  split_ifs with h1 h2 h3 h4 h5 h6 h7 h8
  · obtain ⟨rfl, rfl⟩ := h1; exact absurd (by decide) h
  · obtain ⟨rfl, rfl⟩ := h2; exact absurd (by decide) h
  · obtain ⟨rfl, rfl⟩ := h3; exact absurd (by decide) h
  · obtain ⟨rfl, rfl⟩ := h4; exact absurd (by decide) h
  · obtain ⟨rfl, rfl⟩ := h5; exact absurd (by decide) h
  · obtain ⟨rfl, rfl⟩ := h6; exact absurd (by decide) h
  · obtain ⟨rfl, rfl⟩ := h7; exact absurd (by decide) h
  · obtain ⟨rfl, rfl⟩ := h8; exact absurd (by decide) h
  · rfl

/-- Witness for C5: a pair outside the table defaults to
`direct_paste`. -/
theorem C5_witness :
    detect_transformation "code_editor" "unknown" = "direct_paste" :=
  C5_transformation_table.2.2.2.2.2.2.2.2 "code_editor" "unknown" (by decide)

/-- C6: for the worked example (Excel selection Sales.xlsx!Q1!A1:B2
pasted into Report.docx at page 2, paragraph 5) the unified event's
transformation kind is `table_to_text` and its description is exactly
the stated string. -/
theorem C6_worked_example :
    (create_unified_paste_event none (get_last_clipboard [salesEntry])
        reportDest).data_flow.map DataFlow.transformation =
      some "table_to_text" ∧
    (create_unified_paste_event none (get_last_clipboard [salesEntry])
        reportDest).description =
      "Pasted from Sales.xlsx!Q1!A1:B2 to Report.docx (Page 2, Para 5)" :=
  ⟨rfl, rfl⟩

/-- C9 (counterexample): an inbound message whose JSON parses to a
non-object (here the list `[1, 2, 3]`) is not a well-formed
`capture_paste_destination` command, yet handling it raises an
`AttributeError` (only `json.JSONDecodeError` is caught), so the claim
that no error propagates for every malformed message is false. -/
theorem C9_nondict_counterexample :
    process_message (.value (.pylist [.pynum 1, .pynum 2, .pynum 3])) =
      .error .attributeError := rfl

/-- C9 (amended): a message that fails JSON parsing is discarded with
no event and no error; a message parsing to a JSON object whose `type`
is not `capture_paste_destination` is likewise ignored; an object with
the recognized `type` triggers exactly the paste-destination request.
Messages parsing to non-object JSON, however, raise an uncaught
`AttributeError`. -/
theorem C9_command_handling :
    (∀ raw : String, process_message (.unparsable raw) = .ok none) ∧
    (∀ fields, isCaptureCmd (dictGet fields "type") = false →
      process_message (.value (.pydict fields)) = .ok none) ∧
    (∀ fields, isCaptureCmd (dictGet fields "type") = true →
      process_message (.value (.pydict fields)) =
        .ok (some { timestamp := dictGet fields "timestamp"
                    application := (dictGet fields "application").getD (.pystr "Unknown")
                    window := (dictGet fields "window").getD (.pystr "") })) := by
  refine ⟨fun raw => rfl, fun fields h => ?_, fun fields h => ?_⟩
  · simp [process_message, handle_command, h]
  · simp [process_message, handle_command, h]

/-- Witness for C9: a JSON object with an unrecognized command type is
ignored. -/
theorem C9_witness :
    process_message (.value (.pydict [("type", .pystr "ping")])) = .ok none :=
  C9_command_handling.2.1 [("type", .pystr "ping")] (by rfl)

/-- C7: when the window title splits on `" - "` into at least two
parts, the browser handler takes the first part as page title and the
second-to-last (or the second, for exactly two parts) as domain. -/
theorem C7_browser_title (app_name window_title : String)
    (h : 2 ≤ (titleParts window_title).length) :
    (capture_browser_destination app_name window_title).page_title =
      some (String.mk ((titleParts window_title).getD 0 [])) ∧
    (capture_browser_destination app_name window_title).domain =
      some (String.mk (if 2 < (titleParts window_title).length then
        (titleParts window_title).getD ((titleParts window_title).length - 2) []
        else (titleParts window_title).getD 1 [])) := by
  simp only [capture_browser_destination]
  rw [if_pos h]
  cases web_apps.find? (fun kv => hasSub kv.1.toList
      (lowerL window_title.toList)) <;> simp

/-- Witness for C7: the spec's browser-title example. -/
theorem C7_witness :
    (capture_browser_destination "Google Chrome"
        "Dashboard - Acme CRM - Google Chrome").page_title = some "Dashboard" ∧
    (capture_browser_destination "Google Chrome"
        "Dashboard - Acme CRM - Google Chrome").domain = some "Acme CRM" := by
  obtain ⟨h1, h2⟩ := C7_browser_title "Google Chrome"
    "Dashboard - Acme CRM - Google Chrome" (by decide)
  exact ⟨h1.trans (by decide), h2.trans (by decide)⟩

/-- C8: content-type detection and application-type inference are total
functions into their closed enumerations, with `text` and `unknown` as
the fallbacks for unrecognized inputs (including the absent
application name). -/
theorem C8_closed_enums :
    (∀ content : String,
      detect_data_type content = "email" ∨ detect_data_type content = "phone" ∨
      detect_data_type content = "url" ∨ detect_data_type content = "number" ∨
      detect_data_type content = "date" ∨ detect_data_type content = "tabular" ∨
      detect_data_type content = "multiline" ∨ detect_data_type content = "text") ∧
    (∀ app_name : Option String,
      infer_app_type app_name = "spreadsheet" ∨
      infer_app_type app_name = "document" ∨
      infer_app_type app_name = "presentation" ∨
      infer_app_type app_name = "web_application" ∨
      infer_app_type app_name = "code_editor" ∨
      infer_app_type app_name = "unknown") ∧
    detect_data_type "no recognizable shape" = "text" ∧
    infer_app_type none = "unknown" := by
  refine ⟨fun content => ?_, fun app_name => ?_, by decide, by decide⟩
  · simp only [detect_data_type]
    split_ifs <;> simp
  · simp only [infer_app_type]
    split_ifs <;> simp

/-! ### Ledger lemmas -/

/-- One append-and-evict step keeps the ledger within capacity. -/
theorem pushEvent_length_le (hist : List ClipEvent) (e : ClipEvent)
    (h : hist.length ≤ max_history) :
    (pushEvent hist e).length ≤ max_history := by
  simp only [pushEvent]
  split_ifs with hgt
  · simp only [List.length_drop, List.length_append, List.length_cons,
      List.length_nil] at *
    omega
  · simp only [List.length_append, List.length_cons, List.length_nil,
      Nat.not_lt] at *
    omega

/-- When the appended list exceeds capacity, exactly the oldest entry
(index 0) is dropped. -/
theorem pushEvent_oldest_dropped (hist : List ClipEvent) (e : ClipEvent)
    (h : max_history < (hist ++ [e]).length) :
    pushEvent hist e = (hist ++ [e]).drop 1 := by
  simp only [pushEvent]
  rw [if_pos h]

/-- Closed form of one step from a within-capacity state. -/
theorem pushEvent_formula (hist : List ClipEvent) (e : ClipEvent)
    (h : hist.length ≤ max_history) :
    pushEvent hist e = (hist ++ [e]).drop ((hist ++ [e]).length - max_history) := by
  simp only [pushEvent]
  split_ifs with hgt
  · congr 1
    simp only [List.length_append, List.length_cons, List.length_nil] at *
    omega
  · have h0 : (hist ++ [e]).length - max_history = 0 := by
      simp only [List.length_append, List.length_cons, List.length_nil,
        Nat.not_lt] at *
      omega
    rw [h0, List.drop_zero]

/-- Closed form of the whole ledger: recording a sequence from the
empty history retains exactly the trailing block of at most
`max_history` entries, in insertion order. -/
theorem recordAll_eq (es : List ClipEvent) :
    recordAll es = es.drop (es.length - max_history) := by
  induction es using List.reverseRecOn with
  | nil => rfl
  | append_singleton l e ih =>
    have hlen : (recordAll l).length ≤ max_history := by
      rw [ih]
      simp only [List.length_drop]
      omega
    have step : recordAll (l ++ [e]) = pushEvent (recordAll l) e := by
      simp [recordAll, List.foldl_append]
    rw [step, pushEvent_formula _ _ hlen, ih]
    have hmh : max_history = 50 := rfl
    by_cases hL : max_history ≤ l.length
    · have e1 : (l.drop (l.length - max_history) ++ [e]).length - max_history = 1 := by
        simp only [List.length_append, List.length_drop, List.length_cons,
          List.length_nil]
        omega
      have e2 : (l ++ [e]).length - max_history = (l.length - max_history) + 1 := by
        simp only [List.length_append, List.length_cons, List.length_nil]
        omega
      have h1le : 1 ≤ (l.drop (l.length - max_history)).length := by
        simp only [List.length_drop]
        omega
      have hk1le : (l.length - max_history) + 1 ≤ l.length := by omega
      rw [e1, e2, List.drop_append_of_le_length h1le, List.drop_drop,
        List.drop_append_of_le_length hk1le]
    · have hk : l.length - max_history = 0 := by omega
      have hm : (l.drop 0 ++ [e]).length - max_history = 0 := by
        simp only [List.length_append, List.length_drop, List.length_cons,
          List.length_nil]
        omega
      have hm2 : (l ++ [e]).length - max_history = 0 := by
        simp only [List.length_append, List.length_cons, List.length_nil]
        omega
      rw [hk, hm, hm2, List.drop_zero, List.drop_zero, List.drop_zero]

/-- C3: recording more entries than the capacity leaves exactly the
`max_history` most recent ones in insertion order; each step past
capacity drops exactly the oldest entry, and a within-capacity ledger
never exceeds capacity after a step. -/
theorem C3_ledger_capacity (es : List ClipEvent) (h : max_history < es.length) :
    recordAll es = es.drop (es.length - max_history) ∧
    (recordAll es).length = max_history ∧
    (∀ (hist : List ClipEvent) (e : ClipEvent), hist.length ≤ max_history →
      (pushEvent hist e).length ≤ max_history) ∧
    (∀ (hist : List ClipEvent) (e : ClipEvent), max_history < (hist ++ [e]).length →
      pushEvent hist e = (hist ++ [e]).drop 1) := by
  refine ⟨recordAll_eq es, ?_, pushEvent_length_le, pushEvent_oldest_dropped⟩
  rw [recordAll_eq es]
  simp only [List.length_drop]
  omega

/-- Witness for C3: recording 51 entries keeps exactly the last 50. -/
theorem C3_witness :
    recordAll (List.replicate 51 entryA) = (List.replicate 51 entryA).drop 1 ∧
    (recordAll (List.replicate 51 entryA)).length = max_history := by
  have h := C3_ledger_capacity (List.replicate 51 entryA)
    (by simp [max_history])
  refine ⟨?_, h.2.1⟩
  have h1 := h.1
  simpa [max_history] using h1

/-! ### Newest-to-oldest scan lemmas -/

/-- On a newest-first (descending-timestamp) list, the first hit of the
scan is a maximal-timestamp eligible entry. -/
theorem find_rev_spec (l : List ClipEvent) (t : Nat)
    (hd : l.Pairwise (fun a b => b.timestamp ≤ a.timestamp)) :
    ∀ e, l.find? (fun x => x.timestamp ≤ t) = some e →
      e ∈ l ∧ e.timestamp ≤ t ∧
        ∀ x ∈ l, x.timestamp ≤ t → x.timestamp ≤ e.timestamp := by
  induction l with
  | nil => intro e he; simp at he
  | cons a l ih =>
    intro e he
    by_cases ha : a.timestamp ≤ t
    · rw [List.find?_cons_of_pos _ (by simpa using ha)] at he
      cases he
      refine ⟨List.mem_cons_self a l, ha, ?_⟩
      intro x hx hxt
      rcases List.mem_cons.mp hx with rfl | hx'
      · exact Nat.le_refl _
      · exact (List.pairwise_cons.mp hd).1 x hx'
    · rw [List.find?_cons_of_neg _ (by simpa using ha)] at he
      obtain ⟨hmem, het, hmax⟩ := ih (List.pairwise_cons.mp hd).2 e he
      refine ⟨List.mem_cons_of_mem a hmem, het, ?_⟩
      intro x hx hxt
      rcases List.mem_cons.mp hx with rfl | hx'
      · exact absurd hxt ha
      · exact hmax x hx' hxt

/-- C4: on a chronologically ordered ledger, `find_paste_destination`
returns an entry with the greatest timestamp at most the paste time
(found newest-to-oldest), and returns `none` exactly when the ledger is
empty or every entry is later than the paste time. -/
theorem C4_most_recent_before (hist : List ClipEvent) (t : Nat)
    (hchron : hist.Pairwise (fun a b => a.timestamp ≤ b.timestamp)) :
    (∀ e, find_paste_destination hist t = some e →
      e ∈ hist ∧ e.timestamp ≤ t ∧
        ∀ x ∈ hist, x.timestamp ≤ t → x.timestamp ≤ e.timestamp) ∧
    (find_paste_destination hist t = none ↔ ∀ e ∈ hist, t < e.timestamp) := by
  have hrev : hist.reverse.Pairwise (fun a b => b.timestamp ≤ a.timestamp) := by
    rw [List.pairwise_reverse]
    exact hchron
  constructor
  · intro e he
    obtain ⟨hm, ht, hmax⟩ := find_rev_spec hist.reverse t hrev e he
    exact ⟨List.mem_reverse.mp hm, ht,
      fun x hx => hmax x (List.mem_reverse.mpr hx)⟩
  · simp [find_paste_destination, List.find?_eq_none, List.mem_reverse,
      Nat.not_le]

/-- Witness for C4: on the two-entry ledger the scan at time 3 returns
the eligible entry. -/
theorem C4_witness : entryA ∈ [entryA, entryB] ∧ entryA.timestamp ≤ 3 := by
  have h := (C4_most_recent_before [entryA, entryB] 3 (by decide)).1 entryA
    (by decide)
  exact ⟨h.1, h.2.1⟩

/-! ### Monitor-loop lemmas -/

/-- Every recorded poll carries non-empty clipboard text. -/
theorem recordedPolls_nonempty (polls : List Poll) :
    ∀ last, ∀ p ∈ recordedPolls last polls, p.content ≠ "" := by
  induction polls with
  | nil => intro last p hp; simp [recordedPolls] at hp
  | cons q rest ih =>
    intro last p hp
    rw [recordedPolls] at hp
    split_ifs at hp with hc
    · rcases List.mem_cons.mp hp with rfl | hp'
      · exact hc.1
      · exact ih q.content p hp'
    · exact ih last p hp

/-- Consecutively recorded polls carry different text, and the first
one differs from the text observed at the previous recording. -/
theorem recordedPolls_chain (polls : List Poll) :
    ∀ last,
      (recordedPolls last polls).Chain' (fun a b => a.content ≠ b.content) ∧
      ∀ q, (recordedPolls last polls).head? = some q → q.content ≠ last := by
  induction polls with
  | nil =>
    intro last
    refine ⟨?_, ?_⟩
    · rw [recordedPolls]
      exact List.chain'_nil
    · intro q hq
      rw [recordedPolls] at hq
      simp at hq
  | cons p rest ih =>
    intro last
    by_cases hc : p.content ≠ "" ∧ p.content ≠ last
    · rw [recordedPolls, if_pos hc]
      refine ⟨?_, ?_⟩
      · rw [List.chain'_cons']
        refine ⟨?_, (ih p.content).1⟩
        intro b hb
        exact fun hEq => (ih p.content).2 b hb (by rw [hEq])
      · intro q hq
        rw [List.head?_cons] at hq
        cases hq
        exact hc.2
    · rw [recordedPolls, if_neg hc]
      exact ih last
  
/-- The history produced by folding the monitor loop equals the history
produced by recording exactly the triggering polls. -/
theorem fold_history (polls : List Poll) :
    ∀ last hist,
      (polls.foldl monitorStep { last := last, history := hist }).history =
        (recordedPolls last polls).foldl
          (fun h p => pushEvent h (mkClipEvent p)) hist := by
  induction polls with
  | nil => intro last hist; rfl
  | cons q rest ih =>
    intro last hist
    rw [List.foldl_cons, recordedPolls]
    by_cases hc : q.content ≠ "" ∧ q.content ≠ last
    · rw [if_pos hc, List.foldl_cons]
      have hstep : monitorStep { last := last, history := hist } q =
          { last := q.content, history := pushEvent hist (mkClipEvent q) } := by
        simp [monitorStep, hc]
      rw [hstep, ih]
    · rw [if_neg hc]
      have hstep : monitorStep { last := last, history := hist } q =
          { last := last, history := hist } := by
        simp only [monitorStep]
        rw [if_neg hc]
      rw [hstep, ih]

/-- C10: across every poll sequence, an entry is recorded only for
non-empty text differing from the previously recorded text: every
recorded poll is non-empty, consecutive recorded polls differ, and the
monitor's final history is exactly the fold of the recorded polls. -/
theorem C10_monitor_invariant (polls : List Poll) :
    (∀ p ∈ recordedPolls "" polls, p.content ≠ "") ∧
    (recordedPolls "" polls).Chain' (fun a b => a.content ≠ b.content) ∧
    (polls.foldl monitorStep initMonState).history =
      (recordedPolls "" polls).foldl
        (fun h p => pushEvent h (mkClipEvent p)) [] :=
  ⟨recordedPolls_nonempty polls "", (recordedPolls_chain polls "").1,
   fold_history polls "" []⟩

/-- Witness for C10: of the four polls (fresh, empty, duplicate,
fresh) only the first and last are recorded. -/
theorem C10_witness :
    ([pollA, pollB, pollC, pollD].foldl monitorStep initMonState).history =
      [mkClipEvent pollA, mkClipEvent pollD] ∧ pollA.content ≠ "" := by
  have h := C10_monitor_invariant [pollA, pollB, pollC, pollD]
  refine ⟨h.2.2.trans ?_, h.1 pollA (by decide)⟩
  decide
